import Mathlib

/-!
# Shallow embedding of `src/cmd.c` (Mini-Shell command-tree executor)

This file embeds the command-tree executor of the repository's single
source file `src/cmd.c` and settles the frozen claims about it.

Modelling conventions (documented once here):
* C linked structures (`word_t`, `command_t`) become inductive types; a
  NULL pointer is an explicit `nullw` / `nullc` constructor.
* Machine integers are `Nat`.  POSIX process facts are modelled
  explicitly: a process terminating via `exit(s)` is observed by its
  waiter with exit code `s % 256`, and `waitpid` stores that code
  shifted into bits 8..15, i.e. the raw wait status is `code * 256`.
* `fork` is modelled as always succeeding (the `pid < 0` branches of the
  source are the only paths out of scope).  A child process starts from
  a snapshot of the parent's state; its state changes are discarded and
  only its exit code is observed by the parent.
* File descriptors live in an association table from descriptor numbers
  to targets.  Allocation (`open`, `dup`, `pipe`) returns fresh,
  monotonically increasing numbers (`nextFd`); which exact numbers POSIX
  hands out is irrelevant to every claim, only freshness is used.
* External program execution (`execvp`) is an oracle of the environment
  (`World.execProg`): `none` means `execvp` fails, `some c` means the
  process image is replaced and the program eventually exits with code
  `c % 256`.  `chdir` succeeds exactly on the directories the oracle
  `World.validDir` accepts.
* Bounded C buffers (the `calloc(100, ...)` strings) are modelled as
  unbounded strings; the claims do not concern overflow.
-/

/-- A fragment node of the C `word_t` linked structure: a string, an
`expand` flag, and the two link fields `next_part` (next fragment of the
same word) and `next_word` (next word of a word list).  `nullw` is the
NULL pointer. -/
inductive word_t : Type where
  | nullw : word_t
  | mk (string : String) (expand : Bool) (next_part : word_t) (next_word : word_t) : word_t
deriving Repr, DecidableEq

/-- Field access `w->string` (meaningful only off NULL, as in C). -/
def word_t.string : word_t → String
  | .nullw => ""
  | .mk s _ _ _ => s

/-- Field access `w->expand`. -/
def word_t.expand : word_t → Bool
  | .nullw => false
  | .mk _ e _ _ => e

/-- Field access `w->next_part`. -/
def word_t.next_part : word_t → word_t
  | .nullw => .nullw
  | .mk _ _ np _ => np

/-- Field access `w->next_word`. -/
def word_t.next_word : word_t → word_t
  | .nullw => .nullw
  | .mk _ _ _ nw => nw

/-- The C `simple_command_t`: verb, parameter list and the three
redirection targets (each possibly NULL), plus the `io_flags` field.
The unused back pointer `up` is omitted. -/
structure simple_command_t : Type where
  verb : word_t
  params : word_t
  «in» : word_t
  out : word_t
  err : word_t
  io_flags : Nat
deriving Repr, DecidableEq

/-- The operator tags of `command_t` used by `cmd.c`. -/
inductive operator_t : Type where
  | OP_NONE | OP_SEQUENTIAL | OP_PARALLEL | OP_CONDITIONAL_NZERO | OP_CONDITIONAL_ZERO | OP_PIPE
deriving Repr, DecidableEq

/-- The C `command_t` tree node: operator tag, optional simple command
(`scmd`, NULL modelled as `none`), and the two children.  `nullc` is the
NULL pointer. -/
inductive command_t : Type where
  | nullc : command_t
  | mk (op : operator_t) (scmd : Option simple_command_t) (cmd1 cmd2 : command_t) : command_t
deriving Repr, DecidableEq

/-- What an open file descriptor refers to: the process's original
standard input/output/error, a file opened for reading, a file opened
for writing (with its append-vs-truncate mode), or one end of a pipe
(tagged with the pipe's identity). -/
inductive FdTarget : Type where
  | tin | tout | terr
  | fileRead (path : String)
  | fileWrite (path : String) (append : Bool)
  | pipeR (id : Nat) | pipeW (id : Nat)
deriving Repr, DecidableEq

/-- Process-local state threaded through the evaluator: the environment
variables, the working directory, the open-descriptor table, the next
fresh descriptor number, and a counter of `fork` calls made by this
process (children's own forks are not counted, matching the fact that a
parent only observes its own `fork` calls). -/
structure PState : Type where
  env : List (String × String)
  cwd : String
  fds : List (Nat × FdTarget)
  nextFd : Nat
  spawns : Nat
deriving Repr, DecidableEq

/-- The ambient OS facts the program consults: which `chdir` targets
succeed and what `execvp` does for a given verb and argument vector. -/
structure World : Type where
  validDir : String → Bool
  execProg : String → List String → Option Nat

/-- `getenv(name)`: first binding of `name` in the environment. -/
def getenvS (st : PState) (name : String) : Option String :=
  (st.env.find? (fun p => p.1 == name)).map (fun p => p.2)

/-- `setenv(name, value, 1)`: bind `name` to `value`, shadowing any
previous binding. -/
def setenvS (st : PState) (name value : String) : PState :=
  { st with env := (name, value) :: st.env }

/-- `chdir(path)`: succeed (and move) iff the world accepts the path. -/
def chdirS (w : World) (path : String) (st : PState) : Bool × PState :=
  if w.validDir path then (true, { st with cwd := path }) else (false, st)

/-- `shell_cd` (cmd.c lines 22-41): NULL directory means `chdir(getenv("HOME"))`
(failing when HOME is unset, as `chdir(NULL)` fails); otherwise
`chdir(dir->string)` — note: only the first fragment's literal string. -/
def shell_cd (w : World) (dir : word_t) (st : PState) : Bool × PState :=
  match dir with
  | .nullw =>
    match getenvS st "HOME" with
    | none => (false, st)
    | some h => chdirS w h st
  | .mk s _ _ _ => chdirS w s st

/-- The fragment-concatenation loop shared by `getFile`, `getParameters`
and the assignment case of `parse_simple` (cmd.c duplicates this loop
textually): walk `next_part`, substituting the environment value (empty
when unset) for `expand` fragments and the literal string otherwise. -/
def wordConcat (st : PState) : word_t → String
  | .nullw => ""
  | .mk s e np _ =>
    (if e then (getenvS st s).getD "" else s) ++ wordConcat st np

/-- `getFile` (cmd.c lines 51-84): resolve a redirection-target word. -/
def getFile (st : PState) (wd : word_t) : String :=
  wordConcat st wd

/-- Lookup in the descriptor table. -/
def lookupFd (fds : List (Nat × FdTarget)) (k : Nat) : Option FdTarget :=
  (fds.find? (fun p => p.1 == k)).map (fun p => p.2)

/-- Replace the binding of descriptor `k` (or add it at the end). -/
def setFd : List (Nat × FdTarget) → Nat → FdTarget → List (Nat × FdTarget)
  | [], k, v => [(k, v)]
  | (k', v') :: rest, k, v =>
    if k' = k then (k, v) :: rest else (k', v') :: setFd rest k v

/-- Remove every binding of descriptor `k`. -/
def eraseFd : List (Nat × FdTarget) → Nat → List (Nat × FdTarget)
  | [], _ => []
  | (k', v') :: rest, k =>
    if k' = k then eraseFd rest k else (k', v') :: eraseFd rest k

/-- `open(...)`: allocate a fresh descriptor for the given target
(open failures are not modelled; the source never checks them, see the
spec's §4.2 known weakness). -/
def openFd (st : PState) (tgt : FdTarget) : Nat × PState :=
  (st.nextFd,
   { st with fds := st.fds ++ [(st.nextFd, tgt)], nextFd := st.nextFd + 1 })

/-- `dup(fd)`: fresh descriptor aliasing `fd`'s target; `none` when `fd`
is not open (C returns -1, unchecked by the source). -/
def dupFd (st : PState) (fd : Nat) : Option Nat × PState :=
  match lookupFd st.fds fd with
  | some t =>
    (some st.nextFd,
     { st with fds := st.fds ++ [(st.nextFd, t)], nextFd := st.nextFd + 1 })
  | none => (none, st)

/-- `dup2(oldfd, newfd)`: retarget `newfd` at `oldfd`'s target; a bad
`oldfd` makes `dup2` fail with no effect (unchecked by the source). -/
def dup2Fd (st : PState) (oldfd newfd : Nat) : PState :=
  match lookupFd st.fds oldfd with
  | some t => { st with fds := setFd st.fds newfd t }
  | none => st

/-- `dup2` whose old descriptor comes from a possibly-uninitialized slot
of the saved array (`none` models an indeterminate value; the call then
fails with no effect, the charitable reading of the C behaviour). -/
def dup2FdOpt (st : PState) (oldfd : Option Nat) (newfd : Nat) : PState :=
  match oldfd with
  | some o => dup2Fd st o newfd
  | none => st

/-- `close(fd)` for a possibly-uninitialized slot: closing an
indeterminate value is modelled as a no-op. -/
def closeFdOpt (st : PState) (fd : Option Nat) : PState :=
  match fd with
  | some k => { st with fds := eraseFd st.fds k }
  | none => st

/-- `close(fd)`. -/
def closeFd (st : PState) (fd : Nat) : PState :=
  { st with fds := eraseFd st.fds fd }

/-- Modelled from the spec: the header `cmd.h` is not part of `src/`;
its redirection-flag constants follow the spec's two-flag model
("append vs truncate for stdout, append vs truncate for stderr") with
the conventional values.  `cmd.c` compares `io_flags` with `==` against
these constants. -/
def IO_REGULAR : Nat := 0

/-- Modelled from the spec: the stdout-append flag constant of the
missing `cmd.h` (see `IO_REGULAR`). -/
def IO_OUT_APPEND : Nat := 1

/-- Modelled from the spec: the stderr-append flag constant of the
missing `cmd.h` (see `IO_REGULAR`). -/
def IO_ERR_APPEND : Nat := 2

/-- The `int saved[6]` array of `saveAllAndSwitch`: slots 0-2 the saved
duplicates of stdin/stdout/stderr, slots 3-5 the descriptors opened for
the redirections.  A slot the function never wrote stays uninitialized
(`none`). -/
structure SavedArr : Type where
  a0 : Option Nat
  a1 : Option Nat
  a2 : Option Nat
  a3 : Option Nat
  a4 : Option Nat
  a5 : Option Nat
deriving Repr, DecidableEq

/-- `saveAllAndSwitch` (cmd.c lines 86-156): for each redirection
present, duplicate the standard descriptor for later restoration, open
the target and `dup2` it onto the standard stream.  The output file is
opened in append mode when `io_flags == IO_OUT_APPEND` or when an error
target exists whose first fragment's literal string equals the output
target's first fragment's string (`strcmp(s->out->string,
s->err->string) == 0`); the error file is opened in append mode exactly
when `io_flags == IO_ERR_APPEND`. -/
def saveAllAndSwitch (s : simple_command_t) (st0 : PState) : SavedArr × PState :=
  let (saved_stdin, fd_in, st1) :=
    if s.«in» ≠ .nullw then
      let (sv, stA) := dupFd st0 0
      let file := getFile stA s.«in»
      let (fd, stB) := openFd stA (.fileRead file)
      (sv, some fd, dup2Fd stB fd 0)
    else (none, none, st0)
  let (saved_stdout, fd_out, st2) :=
    if s.out ≠ .nullw then
      let (sv, stA) := dupFd st1 1
      if s.io_flags == IO_OUT_APPEND
          || (!(s.err == .nullw) && s.out.string == s.err.string) then
        let file := getFile stA s.out
        let (fd, stB) := openFd stA (.fileWrite file true)
        (sv, some fd, dup2Fd stB fd 1)
      else
        let file := getFile stA s.out
        let (fd, stB) := openFd stA (.fileWrite file false)
        (sv, some fd, dup2Fd stB fd 1)
    else (none, none, st1)
  let (saved_stderr, fd_err, st3) :=
    if s.err ≠ .nullw then
      let (sv, stA) := dupFd st2 2
      if s.io_flags == IO_ERR_APPEND then
        let file := getFile stA s.err
        let (fd, stB) := openFd stA (.fileWrite file true)
        (sv, some fd, dup2Fd stB fd 2)
      else
        let file := getFile stA s.err
        let (fd, stB) := openFd stA (.fileWrite file false)
        (sv, some fd, dup2Fd stB fd 2)
    else (none, none, st2)
  (⟨saved_stdin, saved_stdout, saved_stderr, fd_in, fd_out, fd_err⟩, st3)

/-- `switchAndClose` (cmd.c lines 158-178): `dup2` each saved duplicate
back onto its standard stream (guarded by the same presence tests), then
close slots 3-5 — and only those; the saved duplicates in slots 0-2 are
never closed. -/
def switchAndClose (saved : SavedArr) (s : simple_command_t) (st0 : PState) : PState :=
  let st1 := if s.«in» ≠ .nullw then dup2FdOpt st0 saved.a0 0 else st0
  let st2 := if s.out ≠ .nullw then dup2FdOpt st1 saved.a1 1 else st1
  let st3 := if s.err ≠ .nullw then dup2FdOpt st2 saved.a2 2 else st2
  let st4 := closeFdOpt st3 saved.a3
  let st5 := closeFdOpt st4 saved.a4
  closeFdOpt st5 saved.a5

/-- The parameter loop of `getParameters` (cmd.c lines 188-215): one
resolved string per `next_word`-linked parameter, each resolved by the
same fragment loop as `getFile`. -/
def getParametersTail (st : PState) : word_t → List String
  | .nullw => []
  | .mk s e np nw => wordConcat st (.mk s e np .nullw) :: getParametersTail st nw

/-- `getParameters` (cmd.c lines 180-219): `argv[0]` is the verb's first
fragment literal string, then the resolved parameters. -/
def getParameters (st : PState) (s : simple_command_t) : List String :=
  s.verb.string :: getParametersTail st s.params

/-- Outcome of running a piece of the evaluator in some process: the C
function returned a status, or the process terminated via `exit`
(`shell_exit`), carrying the exit code already reduced mod 256. -/
inductive COutcome : Type where
  | ret (status : Nat)
  | exited (code : Nat)
deriving Repr, DecidableEq

/-- Exit code a waiter observes for a forked child that runs a
computation with the given outcome: a child whose computation's C
function returns `s` then calls `shell_exit(s)`, so the code is
`s % 256`; a child that already exited carries its code. -/
def childCode : COutcome → Nat
  | .ret s => s % 256
  | .exited c => c

/-- The raw status `waitpid` stores for a child that exited normally
with the given code: the code shifted into bits 8..15. -/
def wstatus (code : Nat) : Nat :=
  code * 256

/-- The `if (... strcmp(...->verb->string, "cd") == 0) shell_cd(...)`
hook that `Conditional_Zero` / `Conditional_NZero` run after evaluating
`cmd1` (cmd.c lines 427-430, 445-448, 460-464, 480-483, 498-501): when
`cmd1` has a simple command whose verb is non-NULL and reads "cd",
re-apply `shell_cd` on its parameters in the current process. -/
def condCdHook (w : World) (cmd1 : command_t) (st : PState) : PState :=
  match cmd1 with
  | .mk _ (some s) _ _ =>
    if !(s.verb == .nullw) && (s.verb.string == "cd") then
      (shell_cd w s.params st).2
    else st
  | _ => st

/-- `pipe(pipefd)`: allocate the read and write ends on two fresh
descriptors (returned in that order, as POSIX fills `pipefd`). -/
def pipeSys (st : PState) : (Nat × Nat) × PState :=
  ((st.nextFd, st.nextFd + 1),
   { st with
      fds := st.fds ++ [(st.nextFd, .pipeR st.nextFd), (st.nextFd + 1, .pipeW st.nextFd)],
      nextFd := st.nextFd + 2 })

/-- The descriptor rewiring the left pipe child performs before
evaluating its command (cmd.c lines 392-394): close the read end,
`dup2` the write end onto stdout, close the write end. -/
def pipeChild1State (st : PState) (rfd wfd : Nat) : PState :=
  closeFd (dup2Fd (closeFd st rfd) wfd 1) wfd

/-- The descriptor rewiring the right pipe child performs before
evaluating its command (cmd.c lines 402-404): close the write end,
`dup2` the read end onto stdin, close the read end. -/
def pipeChild2State (st : PState) (rfd wfd : Nat) : PState :=
  closeFd (dup2Fd (closeFd st wfd) rfd 0) rfd

/-- `parse_simple` (cmd.c lines 226-339).  In order: structural checks;
the `var=value` assignment case (before every other case); the `exit`,
`quit`, `true`, `false` built-ins; otherwise fork.  The child builds
`argv`, applies the redirections, runs `shell_cd` (for verb "cd") or
`execvp`; an exec failure exits with 1, a successful exec ends with the
program's exit code, and the cd path restores the descriptors and exits
with 0.  The parent waits, re-runs `shell_cd` (for verb "cd"), returns 1
on a failed cd and the raw wait status otherwise.  `fork` failure
(return -1) is outside the model. -/
def parse_simple (w : World) (s : Option simple_command_t) (level : Nat)
    (father : command_t) (st : PState) : COutcome × PState :=
  match s with
  | none => (.ret 1, st)
  | some s =>
    match s.verb with
    | .nullw => (.ret 1, st)
    | .mk vstr _ vnp _ =>
      if !(vnp == .nullw) && (vnp.string == "=") then
        let value := wordConcat st vnp.next_part
        (.ret 0, setenvS st vstr value)
      else if vstr == "exit" || vstr == "quit" then
        (.exited (0 % 256), st)
      else if vstr == "true" then (.ret 0, st)
      else if vstr == "false" then (.ret 1, st)
      else
        let argv :=
          if s.params ≠ .nullw then getParameters st s
          else [vstr]
        let ccode : Nat :=
          let (saved, cst) := saveAllAndSwitch s st
          if vstr == "cd" then
            let (_cdok, cst2) := shell_cd w s.params cst
            let _cst3 := switchAndClose saved s cst2
            0 % 256
          else
            match w.execProg vstr argv with
            | some c => c % 256
            | none => 1 % 256
        let stP := { st with spawns := st.spawns + 1 }
        let status := wstatus ccode
        let (cd_return, stP2) :=
          if vstr == "cd" then shell_cd w s.params stP else (true, stP)
        if cd_return then (.ret status, stP2) else (.ret 1, stP2)

/-- `parse_command` (cmd.c lines 523-555) together with the operator
handlers it dispatches to, inlined so the recursion is structural:
`run_in_parallel` (344-372), `run_on_pipe` (378-417),
`Conditional_Zero` (420-470) and `Conditional_NZero` (473-516).
A NULL node returns 0; `OP_NONE` delegates to `parse_simple`;
`OP_SEQUENTIAL` evaluates both children, discards both statuses and
falls through to `return 0`; `OP_PARALLEL` forks both children, waits
for both, ignores both statuses and falls through to `return 0`;
`OP_PIPE` forks both children over a pipe, waits for both, and returns
`run_on_pipe`'s `bool`-typed `return status2` (the raw wait status of
the right child collapsed to 0/1 by the C `_Bool` conversion); the
conditionals evaluate directly when `c->scmd` is NULL and inside one
forked child otherwise, with the cd re-application hooks of the
source. -/
def parse_command (w : World) : command_t → Nat → command_t → PState → COutcome × PState
  | .nullc, _, _, st => (.ret 0, st)
  | .mk op scmd cmd1 cmd2, level, father, st =>
    match op with
    | .OP_NONE => parse_simple w scmd level father st
    | .OP_SEQUENTIAL =>
      match parse_command w cmd1 level father st with
      | (.exited e, st1) => (.exited e, st1)
      | (.ret _, st1) =>
        match parse_command w cmd2 level father st1 with
        | (.exited e, st2) => (.exited e, st2)
        | (.ret _, st2) => (.ret 0, st2)
    | .OP_PARALLEL =>
      let _child1 := parse_command w cmd1 level father st
      let stP1 := { st with spawns := st.spawns + 1 }
      let _child2 := parse_command w cmd2 level father stP1
      let stP2 := { stP1 with spawns := stP1.spawns + 1 }
      (.ret 0, stP2)
    | .OP_PIPE =>
      let ((rfd, wfd), stp) := pipeSys st
      let child1 := parse_command w cmd1 level father (pipeChild1State stp rfd wfd)
      let stP1 := { stp with spawns := stp.spawns + 1 }
      let child2 := parse_command w cmd2 level father (pipeChild2State stP1 rfd wfd)
      let stP2 := { stP1 with spawns := stP1.spawns + 1 }
      let stP3 := closeFd (closeFd stP2 rfd) wfd
      let _status1 := wstatus (childCode child1.1)
      let status2 := wstatus (childCode child2.1)
      (.ret (if status2 ≠ 0 then 1 else 0), stP3)
    | .OP_CONDITIONAL_ZERO =>
      let body : COutcome × PState :=
        match parse_command w cmd1 level father st with
        | (.exited e, st1) => (.exited e, st1)
        | (.ret status, st1) =>
          let st2 := condCdHook w cmd1 st1
          if status = 0 then parse_command w cmd2 level father st2
          else (.ret status, st2)
      match scmd with
      | none => body
      | some _ =>
        let stP := { st with spawns := st.spawns + 1 }
        let raw := wstatus (childCode body.1)
        (.ret raw, condCdHook w cmd1 stP)
    | .OP_CONDITIONAL_NZERO =>
      let body : COutcome × PState :=
        match parse_command w cmd1 level father st with
        | (.exited e, st1) => (.exited e, st1)
        | (.ret status, st1) =>
          let st2 := condCdHook w cmd1 st1
          if status ≠ 0 then parse_command w cmd2 level father st2
          else (.ret status, st2)
      match scmd with
      | none => body
      | some _ =>
        let stP := { st with spawns := st.spawns + 1 }
        let raw := wstatus (childCode body.1)
        (.ret raw, stP)

/-! ## Sample inputs used by the concrete theorems -/

/-- A one-fragment literal word. -/
def wlit (s : String) : word_t := .mk s false .nullw .nullw

/-- A plain simple command with the given verb and no parameters or
redirections. -/
def plainCmd (v : String) : simple_command_t :=
  { verb := wlit v, params := .nullw, «in» := .nullw, out := .nullw,
    err := .nullw, io_flags := 0 }

/-- A leaf node (`OP_NONE`) wrapping a plain simple command. -/
def mkLeaf (v : String) : command_t :=
  .mk .OP_NONE (some (plainCmd v)) .nullc .nullc

/-- The standard descriptor table a shell process starts with. -/
def stdFds : List (Nat × FdTarget) := [(0, .tin), (1, .tout), (2, .terr)]

/-- A process state with the standard descriptor table. -/
def stdState (env : List (String × String)) (cwd : String) (spawns : Nat) : PState :=
  { env := env, cwd := cwd, fds := stdFds, nextFd := 3, spawns := spawns }

/-- A concrete start state. -/
def st0 : PState := stdState [("HOME", "/home/u")] "/" 0

/-- A concrete world: two known external programs exiting with codes 1
and 2, and two valid directories. -/
def w0 : World :=
  { validDir := fun p => p == "/d" || p == "/home/u",
    execProg := fun v _ =>
      if v == "prog1" then some 1 else if v == "prog2" then some 2 else none }

/-! ## The status-range invariant

Every status a `parse_command` call can return is 0 or 1 modulo 256, and
the only way the evaluating process itself exits carries code 0 (the
`exit`/`quit` built-in).  Consequently every forked child's observed
exit code is 0 or 1. -/

/-- Range invariant on evaluation outcomes. -/
def okOutcome : COutcome → Prop
  | .ret s => s % 256 < 2
  | .exited c => c = 0

/-- Well-formedness of a process state: every open descriptor number is
below the allocator's next fresh number. -/
def FdInv (st : PState) : Prop :=
  ∀ p ∈ st.fds, p.1 < st.nextFd

/-- A simple command whose verb is "cd" with the literal target `/d` as
its parameter. -/
def cdCmd : simple_command_t :=
  { verb := wlit "cd", params := wlit "/d", «in» := .nullw, out := .nullw,
    err := .nullw, io_flags := 0 }

/-- The expected leaked save-duplicates after a redirection round trip
started from the standard descriptor table: `saveAllAndSwitch` allocates
the save duplicate before the target descriptor for each stream present,
and `switchAndClose` closes only the targets, so one duplicate of the
original stream remains open per redirected stream. -/
def leakedDups (s : simple_command_t) : List (Nat × FdTarget) :=
  (if s.«in» ≠ .nullw then [(3, FdTarget.tin)] else []) ++
  (if s.out ≠ .nullw then
    [(3 + (if s.«in» ≠ .nullw then 2 else 0), FdTarget.tout)] else []) ++
  (if s.err ≠ .nullw then
    [(3 + (if s.«in» ≠ .nullw then 2 else 0) + (if s.out ≠ .nullw then 2 else 0),
      FdTarget.terr)] else [])

/-- A simple command with only an input redirection (`x < f`). -/
def inOnlyCmd : simple_command_t :=
  { verb := wlit "x", params := .nullw, «in» := wlit "f", out := .nullw,
    err := .nullw, io_flags := 0 }

/-- A simple command whose output target has two fragments resolving to
`fg` while the error target is the single fragment `fg`: the two targets
resolve to the same path but their first fragments differ as strings. -/
def outTwoFragsCmd : simple_command_t :=
  { verb := wlit "x", params := .nullw, «in» := .nullw,
    out := .mk "f" false (wlit "g") .nullw, err := wlit "fg", io_flags := 0 }

/-- A simple command sending output and error to the same literal target
`f` with no append flags (`x > f 2> f`). -/
def outErrSameCmd : simple_command_t :=
  { verb := wlit "x", params := .nullw, «in» := .nullw,
    out := wlit "f", err := wlit "f", io_flags := 0 }

/-- A `cd` whose parameter word is an expand-flagged `HOME` fragment
followed by a literal `/x` fragment: resolution would yield the HOME
value followed by `/x`, but `shell_cd` uses the literal string `HOME`. -/
def cdExpandCmd : simple_command_t :=
  { verb := wlit "cd", params := .mk "HOME" true (wlit "/x") .nullw,
    «in» := .nullw, out := .nullw, err := .nullw, io_flags := 0 }

/-- A variable assignment `FOO=$HOME` (verb fragment `FOO`, then the
fragment `=`, then an expand-flagged `HOME` fragment). -/
def assignCmd : simple_command_t :=
  { verb := .mk "FOO" false (.mk "=" false (.mk "HOME" true .nullw .nullw) .nullw) .nullw,
    params := .nullw, «in» := .nullw, out := .nullw, err := .nullw, io_flags := 0 }

/-- An optional one-fragment literal redirection target. -/
def optWord : Option String → word_t
  | some p => wlit p
  | none => .nullw

/-- A simple command with the given one-fragment literal redirection
targets (present or absent per stream) and `io_flags` value. -/
def mkRedirCmd (inp outp errp : Option String) (flags : Nat) : simple_command_t :=
  { verb := wlit "x", params := .nullw, «in» := optWord inp, out := optWord outp,
    err := optWord errp, io_flags := flags }

/-- The redirection command exercised by the round-trip and open-mode
theorems: input target `fi` when `hasIn`, output target `fo` when
`hasOut`, error target `fo` or `fe` (per `same`) when `hasErr`, and the
`io_flags` value `flags`. -/
def redirCase (hasIn hasOut hasErr : Bool) (flags : Fin 3) (same : Bool) :
    simple_command_t :=
  mkRedirCmd (if hasIn then some "fi" else none)
    (if hasOut then some "fo" else none)
    (if hasErr then some (if same then "fo" else "fe") else none) flags.val

theorem parse_simple_ok (w : World) (s : Option simple_command_t) (level : Nat)
    (father : command_t) (st : PState) :
    okOutcome (parse_simple w s level father st).1 := by
  rcases s with _ | s
  · simp [parse_simple, okOutcome]
  · rcases hv : s.verb with _ | ⟨vstr, ve, vnp, vnw⟩ <;>
      simp only [parse_simple, hv]
    · simp [okOutcome]
    · split
      · simp [okOutcome]
      · split
        · simp [okOutcome]
        · split
          · simp [okOutcome]
          · split
            · simp [okOutcome]
            · split
              · split <;> simp [okOutcome, wstatus, Nat.mul_mod_left]
              · split <;> simp [okOutcome, wstatus, Nat.mul_mod_left]

theorem childCode_lt (o : COutcome) (h : okOutcome o) : childCode o < 2 := by
  cases o with
  | ret s => simpa [childCode, okOutcome] using h
  | exited c => simp [childCode, okOutcome] at h ⊢; omega

theorem parse_command_ok (w : World) (c : command_t) :
    ∀ (level : Nat) (father : command_t) (st : PState),
      okOutcome (parse_command w c level father st).1 := by
  induction c with
  | nullc => intro level father st; simp [parse_command, okOutcome]
  | mk op scmd cmd1 cmd2 ih1 ih2 =>
    intro level father st
    cases op with
    | OP_NONE =>
      simpa [parse_command] using parse_simple_ok w scmd level father st
    | OP_SEQUENTIAL =>
      simp only [parse_command]
      rcases h1 : parse_command w cmd1 level father st with ⟨o1, st1⟩
      cases o1 with
      | exited e =>
        have := ih1 level father st
        rw [h1] at this
        simpa using this
      | ret s1 =>
        dsimp only
        rcases h2 : parse_command w cmd2 level father st1 with ⟨o2, st2⟩
        cases o2 with
        | exited e =>
          have := ih2 level father st1
          rw [h2] at this
          simpa using this
        | ret s2 => simp [okOutcome]
    | OP_PARALLEL => simp [parse_command, okOutcome]
    | OP_PIPE =>
      simp only [parse_command]
      split <;> simp [okOutcome]
    | OP_CONDITIONAL_ZERO =>
      simp only [parse_command]
      have hbody : okOutcome
          (match parse_command w cmd1 level father st with
            | (.exited e, st1) => ((.exited e : COutcome), st1)
            | (.ret status, st1) =>
              let st2 := condCdHook w cmd1 st1
              if status = 0 then parse_command w cmd2 level father st2
              else ((.ret status : COutcome), st2)).1 := by
        rcases h1 : parse_command w cmd1 level father st with ⟨o1, st1⟩
        cases o1 with
        | exited e =>
          have := ih1 level father st
          rw [h1] at this
          simpa using this
        | ret s1 =>
          by_cases hs : s1 = 0
          · simpa [hs] using ih2 level father (condCdHook w cmd1 st1)
          · have := ih1 level father st
            rw [h1] at this
            simpa [hs, okOutcome] using this
      rcases scmd with _ | sc
      · exact hbody
      · simp [okOutcome, wstatus, Nat.mul_mod_left]
    | OP_CONDITIONAL_NZERO =>
      simp only [parse_command]
      have hbody : okOutcome
          (match parse_command w cmd1 level father st with
            | (.exited e, st1) => ((.exited e : COutcome), st1)
            | (.ret status, st1) =>
              let st2 := condCdHook w cmd1 st1
              if status ≠ 0 then parse_command w cmd2 level father st2
              else ((.ret status : COutcome), st2)).1 := by
        rcases h1 : parse_command w cmd1 level father st with ⟨o1, st1⟩
        cases o1 with
        | exited e =>
          have := ih1 level father st
          rw [h1] at this
          simpa using this
        | ret s1 =>
          by_cases hs : s1 = 0
          · have := ih1 level father st
            rw [h1] at this
            simpa [hs, okOutcome] using this
          · simpa [hs] using ih2 level father (condCdHook w cmd1 st1)
      rcases scmd with _ | sc
      · exact hbody
      · simp [okOutcome, wstatus, Nat.mul_mod_left]

/-! ## Descriptor-table facts for the pipe claim -/

theorem eraseFd_append (l r : List (Nat × FdTarget)) (k : Nat)
    (h : ∀ p ∈ l, p.1 ≠ k) :
    eraseFd (l ++ r) k = l ++ eraseFd r k := by
  induction l with
  | nil => simp
  | cons hd tl ih =>
    rcases hd with ⟨k1, v1⟩
    have hk : k1 ≠ k := by simpa using h (k1, v1) (by simp)
    have ht : ∀ p ∈ tl, p.1 ≠ k := fun p hp => h p (by simp [hp])
    simp [eraseFd, hk, ih ht]

/-- Claim C2 (confirmed): for every PIPE node the dispatcher returns the
right-hand child process's exit status (`childCode` of evaluating the
right command in the rewired child state), the original process makes
exactly two forks and has closed both pipe ends on return — its
descriptor table is exactly the one it started with.  The interesting
content: `run_on_pipe` is declared `bool` and returns the raw wait
status of the right child, so the dispatcher's value is the `_Bool`
collapse `status2 != 0 ? 1 : 0`; by the status-range invariant
(`parse_command_ok`) every child exit code is 0 or 1, hence that
collapse equals the right child's exit code itself. -/
theorem pipe_returns_right_child_status (w : World) (scmd : Option simple_command_t)
    (cmd1 cmd2 : command_t) (level : Nat) (father : command_t) (st : PState)
    (h : FdInv st) :
    parse_command w (.mk .OP_PIPE scmd cmd1 cmd2) level father st =
      (.ret (childCode (parse_command w cmd2 level father
        (pipeChild2State
          { (pipeSys st).2 with spawns := (pipeSys st).2.spawns + 1 }
          (pipeSys st).1.1 (pipeSys st).1.2)).1),
       { st with spawns := st.spawns + 2, nextFd := st.nextFd + 2 }) := by
  have hcode : childCode (parse_command w cmd2 level father
      (pipeChild2State
        { (pipeSys st).2 with spawns := (pipeSys st).2.spawns + 1 }
        (pipeSys st).1.1 (pipeSys st).1.2)).1 < 2 :=
    childCode_lt _ (parse_command_ok w cmd2 level father _)
  have hne : ∀ p ∈ st.fds, p.1 ≠ st.nextFd :=
    fun p hp => Nat.ne_of_lt (h p hp)
  have hne1 : ∀ p ∈ st.fds, p.1 ≠ st.nextFd + 1 :=
    fun p hp => by have := h p hp; omega
  have hfds1 : eraseFd (st.fds ++
      [(st.nextFd, FdTarget.pipeR st.nextFd), (st.nextFd + 1, FdTarget.pipeW st.nextFd)])
      st.nextFd = st.fds ++ [(st.nextFd + 1, FdTarget.pipeW st.nextFd)] := by
    rw [eraseFd_append _ _ _ hne]
    simp [eraseFd]
  have hfds2 : eraseFd (st.fds ++ [(st.nextFd + 1, FdTarget.pipeW st.nextFd)])
      (st.nextFd + 1) = st.fds := by
    rw [eraseFd_append _ _ _ hne1]
    simp [eraseFd]
  have collapse : ∀ code : Nat, code < 2 →
      (if wstatus code ≠ 0 then (1 : Nat) else 0) = code := by
    intro code hcd
    interval_cases code <;> simp [wstatus]
  simp only [parse_command, pipeSys, closeFd]
  rw [hfds1, hfds2, collapse _ (childCode_lt _ (parse_command_ok w cmd2 level father _))]

theorem fdInv_st0 : FdInv st0 := by
  intro p hp
  simp only [st0, stdState, stdFds, List.mem_cons, List.not_mem_nil, or_false] at hp
  rcases hp with rfl | rfl | rfl <;> simp [st0, stdState]

/-- Witness for `pipe_returns_right_child_status` at a concrete input:
`true | prog2`, where the right command's program exits with code 2 —
the right child process itself then exits with `(2*256) % 256 = 0`, and
the pipe node returns exactly that exit status, 0. -/
theorem pipe_returns_right_child_status_witness :
    FdInv st0 ∧
    parse_command w0 (.mk .OP_PIPE none (mkLeaf "true") (mkLeaf "prog2")) 0 .nullc st0 =
      (.ret (childCode (parse_command w0 (mkLeaf "prog2") 0 .nullc
        (pipeChild2State
          { (pipeSys st0).2 with spawns := (pipeSys st0).2.spawns + 1 }
          (pipeSys st0).1.1 (pipeSys st0).1.2)).1),
       { st0 with spawns := st0.spawns + 2, nextFd := st0.nextFd + 2 }) :=
  ⟨fdInv_st0,
   pipe_returns_right_child_status w0 none (mkLeaf "true") (mkLeaf "prog2") 0 .nullc st0
     fdInv_st0⟩

/-- Claim C8 (confirmed): a PARALLEL node forks both branches (the
parent's fork count rises by exactly 2), waits for both, and the
dispatcher returns the fixed success status 0 with the parent state
otherwise untouched, regardless of either branch's outcome. -/
theorem parallel_returns_zero (w : World) (scmd : Option simple_command_t)
    (cmd1 cmd2 : command_t) (level : Nat) (father : command_t) (st : PState) :
    parse_command w (.mk .OP_PARALLEL scmd cmd1 cmd2) level father st =
      (.ret 0, { st with spawns := st.spawns + 2 }) := rfl

/-- Counterexample to claim C1 as stated: for the SEQUENCE node
`true ; false` the dispatcher returns status 0, while the right child's
status is 1 — the returned status is not the right child's status. -/
theorem seq_status_counterexample :
    parse_command w0 (.mk .OP_SEQUENTIAL none (mkLeaf "true") (mkLeaf "false")) 0 .nullc st0 =
      (.ret 0, st0) ∧
    parse_command w0 (mkLeaf "false") 0 .nullc st0 = (.ret 1, st0) ∧
    (0 : Nat) ≠ 1 := by
  refine ⟨rfl, rfl, by decide⟩

/-- Claim C1 (amended): a SEQUENCE node evaluates the left child first,
then the right child in the state the left child produced, discards both
statuses, and returns 0 (`parse_command` breaks out of the switch and
falls through to `return 0`). -/
theorem seq_returns_zero (w : World) (scmd : Option simple_command_t)
    (cmd1 cmd2 : command_t) (level : Nat) (father : command_t)
    (st st1 st2 : PState) (s1 s2 : Nat)
    (h1 : parse_command w cmd1 level father st = (.ret s1, st1))
    (h2 : parse_command w cmd2 level father st1 = (.ret s2, st2)) :
    parse_command w (.mk .OP_SEQUENTIAL scmd cmd1 cmd2) level father st =
      (.ret 0, st2) := by
  simp [parse_command, h1, h2]

/-- Witness for `seq_returns_zero`: `true ; false` returns 0. -/
theorem seq_returns_zero_witness :
    parse_command w0 (mkLeaf "true") 0 .nullc st0 = (.ret 0, st0) ∧
    parse_command w0 (mkLeaf "false") 0 .nullc st0 = (.ret 1, st0) ∧
    parse_command w0 (.mk .OP_SEQUENTIAL none (mkLeaf "true") (mkLeaf "false")) 0 .nullc st0 =
      (.ret 0, st0) :=
  ⟨rfl, rfl,
   seq_returns_zero w0 none (mkLeaf "true") (mkLeaf "false") 0 .nullc st0 st0 st0 0 1 rfl rfl⟩

/-- Claim C5 (code_bug, evaluated at the failing input): for the
external command `prog1`, whose process exits with status 1, the parent
path of `parse_simple` returns the raw `waitpid` status 256 — not the
exit status 1 the claim (and the source's own comment, cmd.c line 334)
promises, because the source omits `WEXITSTATUS`. -/
theorem external_status_not_verbatim :
    parse_command w0 (mkLeaf "prog1") 0 .nullc st0 =
      (.ret 256, { st0 with spawns := 1 }) ∧
    (256 : Nat) ≠ 1 := by
  refine ⟨rfl, by decide⟩

/-- Counterexample to claim C6 as stated: the IF_ZERO node
`true && false` carrying a non-NULL `scmd` is evaluated inside a forked
child; the left child's status is 0, so the right child runs and its
status is 1, yet the node returns the raw wait status 256, not 1. -/
theorem cond_fork_status_counterexample :
    parse_command w0
      (.mk .OP_CONDITIONAL_ZERO (some (plainCmd "x")) (mkLeaf "true") (mkLeaf "false"))
      0 .nullc st0 = (.ret 256, { st0 with spawns := 1 }) ∧
    parse_command w0 (mkLeaf "true") 0 .nullc st0 = (.ret 0, st0) ∧
    parse_command w0 (mkLeaf "false") 0 .nullc st0 = (.ret 1, st0) ∧
    (256 : Nat) ≠ 1 := by
  refine ⟨rfl, rfl, rfl, by decide⟩

/-- Claim C6 (amended): for both conditionals the right child is
evaluated iff the left child's returned status passes the operator's
test (`= 0` for IF_ZERO, `≠ 0` for IF_NONZERO), on the direct path
(NULL `scmd`) and on the forked path alike.  On the direct path the
returned status is the right child's when it ran and the left child's
otherwise (after the cd re-application hook); on the forked path
(non-NULL `scmd`) the node instead returns the raw wait status
`(s % 256) * 256` of the direct-path status `s`, with the cd hook
re-applied in the parent for IF_ZERO only. -/
theorem conditional_semantics (w : World) (sc : simple_command_t)
    (cmd1 cmd2 : command_t) (level : Nat) (father : command_t)
    (st st1 : PState) (s1 : Nat)
    (h : parse_command w cmd1 level father st = (.ret s1, st1)) :
    (s1 = 0 →
      parse_command w (.mk .OP_CONDITIONAL_ZERO none cmd1 cmd2) level father st =
        parse_command w cmd2 level father (condCdHook w cmd1 st1)) ∧
    (s1 ≠ 0 →
      parse_command w (.mk .OP_CONDITIONAL_ZERO none cmd1 cmd2) level father st =
        (.ret s1, condCdHook w cmd1 st1)) ∧
    (s1 ≠ 0 →
      parse_command w (.mk .OP_CONDITIONAL_NZERO none cmd1 cmd2) level father st =
        parse_command w cmd2 level father (condCdHook w cmd1 st1)) ∧
    (s1 = 0 →
      parse_command w (.mk .OP_CONDITIONAL_NZERO none cmd1 cmd2) level father st =
        (.ret s1, condCdHook w cmd1 st1)) ∧
    (parse_command w (.mk .OP_CONDITIONAL_ZERO (some sc) cmd1 cmd2) level father st =
      (.ret (wstatus (childCode
          (parse_command w (.mk .OP_CONDITIONAL_ZERO none cmd1 cmd2) level father st).1)),
       condCdHook w cmd1 { st with spawns := st.spawns + 1 })) ∧
    (parse_command w (.mk .OP_CONDITIONAL_NZERO (some sc) cmd1 cmd2) level father st =
      (.ret (wstatus (childCode
          (parse_command w (.mk .OP_CONDITIONAL_NZERO none cmd1 cmd2) level father st).1)),
       { st with spawns := st.spawns + 1 })) := by
  refine ⟨?_, ?_, ?_, ?_, rfl, rfl⟩
  · intro hs
    simp [parse_command, h, hs]
  · intro hs
    simp [parse_command, h, hs]
  · intro hs
    simp [parse_command, h, hs]
  · intro hs
    simp [parse_command, h, hs]

/-- Witness for `conditional_semantics` with left `true`, right `false`,
shortcut command `x`. -/
theorem conditional_semantics_witness :
    parse_command w0 (mkLeaf "true") 0 .nullc st0 = (.ret 0, st0) ∧
    ((0 : Nat) = 0 →
      parse_command w0 (.mk .OP_CONDITIONAL_ZERO none (mkLeaf "true") (mkLeaf "false")) 0 .nullc st0 =
        parse_command w0 (mkLeaf "false") 0 .nullc (condCdHook w0 (mkLeaf "true") st0)) ∧
    ((0 : Nat) ≠ 0 →
      parse_command w0 (.mk .OP_CONDITIONAL_ZERO none (mkLeaf "true") (mkLeaf "false")) 0 .nullc st0 =
        (.ret 0, condCdHook w0 (mkLeaf "true") st0)) ∧
    ((0 : Nat) ≠ 0 →
      parse_command w0 (.mk .OP_CONDITIONAL_NZERO none (mkLeaf "true") (mkLeaf "false")) 0 .nullc st0 =
        parse_command w0 (mkLeaf "false") 0 .nullc (condCdHook w0 (mkLeaf "true") st0)) ∧
    ((0 : Nat) = 0 →
      parse_command w0 (.mk .OP_CONDITIONAL_NZERO none (mkLeaf "true") (mkLeaf "false")) 0 .nullc st0 =
        (.ret 0, condCdHook w0 (mkLeaf "true") st0)) ∧
    (parse_command w0 (.mk .OP_CONDITIONAL_ZERO (some (plainCmd "x")) (mkLeaf "true") (mkLeaf "false")) 0 .nullc st0 =
      (.ret (wstatus (childCode
          (parse_command w0 (.mk .OP_CONDITIONAL_ZERO none (mkLeaf "true") (mkLeaf "false")) 0 .nullc st0).1)),
       condCdHook w0 (mkLeaf "true") { st0 with spawns := st0.spawns + 1 })) ∧
    (parse_command w0 (.mk .OP_CONDITIONAL_NZERO (some (plainCmd "x")) (mkLeaf "true") (mkLeaf "false")) 0 .nullc st0 =
      (.ret (wstatus (childCode
          (parse_command w0 (.mk .OP_CONDITIONAL_NZERO none (mkLeaf "true") (mkLeaf "false")) 0 .nullc st0).1)),
       { st0 with spawns := st0.spawns + 1 })) :=
  ⟨rfl, conditional_semantics w0 (plainCmd "x") (mkLeaf "true") (mkLeaf "false") 0 .nullc st0 st0 0 rfl⟩

/-- Counterexample to claim C7 as stated: an IF_NONZERO node carrying a
non-NULL `scmd` whose left branch is `cd /d` (with `/d` a valid
directory) is evaluated inside a forked child; afterwards the original
process's working directory is still `/`, not `/d` — the directory
change was not applied in the parent. -/
theorem nzero_fork_cd_counterexample :
    parse_command w0
      (.mk .OP_CONDITIONAL_NZERO (some (plainCmd "x"))
        (.mk .OP_NONE (some cdCmd) .nullc .nullc) (mkLeaf "false"))
      0 .nullc st0 = (.ret 0, { st0 with spawns := 1 }) ∧
    ({ st0 with spawns := 1 } : PState).cwd = "/" ∧
    w0.validDir "/d" = true ∧
    "/" ≠ "/d" := by
  refine ⟨rfl, rfl, rfl, by decide⟩

/-- Claim C7 (amended): when a conditional's left branch is a leaf whose
simple command's verb is `cd` with a (non-NULL) parameter naming a valid
directory, the cd re-application hook moves the evaluating process to
that directory; IF_ZERO runs the hook in the parent on the forked path
too, so the parent ends in the cd target — but IF_NONZERO's forked path
has no parent-side hook, and the parent's working directory is left
unchanged. -/
theorem conditional_cd_parent_side (w : World) (sc s1c : simple_command_t)
    (op1 : operator_t) (d1 d2 cmd2 : command_t) (level : Nat) (father : command_t)
    (st : PState) (ve : Bool) (vn vw : word_t) (ps : String) (pe : Bool)
    (pp pnw : word_t)
    (hverb : s1c.verb = .mk "cd" ve vn vw)
    (hparams : s1c.params = .mk ps pe pp pnw)
    (hval : w.validDir ps = true) :
    (parse_command w
        (.mk .OP_CONDITIONAL_ZERO (some sc) (.mk op1 (some s1c) d1 d2) cmd2)
        level father st).2.cwd = ps ∧
    (parse_command w
        (.mk .OP_CONDITIONAL_NZERO (some sc) (.mk op1 (some s1c) d1 d2) cmd2)
        level father st).2.cwd = st.cwd ∧
    (∀ st' : PState, (condCdHook w (.mk op1 (some s1c) d1 d2) st').cwd = ps) := by
  have hook : ∀ st' : PState, (condCdHook w (.mk op1 (some s1c) d1 d2) st').cwd = ps := by
    intro st'
    simp [condCdHook, hverb, word_t.string, shell_cd, hparams, chdirS, hval]
  refine ⟨?_, ?_, hook⟩
  · simp only [parse_command]
    exact hook _
  · simp [parse_command]

/-- Claim C9 (confirmed): when the verb's first fragment is followed by
a fragment reading `=`, `parse_simple` sets the environment variable
named by the verb's first fragment to the resolved concatenation of the
fragments after the `=` and returns 0; the state changes only in its
environment — in particular the fork counter is untouched, no process is
spawned — and the check fires for every verb string, before the built-in
and external cases. -/
theorem assignment_sets_env (w : World) (s : simple_command_t) (level : Nat)
    (father : command_t) (st : PState) (vstr : String) (ve : Bool)
    (eqe : Bool) (rest eqw vnw : word_t)
    (hverb : s.verb = .mk vstr ve (.mk "=" eqe rest eqw) vnw) :
    parse_simple w (some s) level father st =
      (.ret 0, { st with env := (vstr, wordConcat st rest) :: st.env }) := by
  simp [parse_simple, hverb, word_t.string, word_t.next_part, setenvS]

/-- Witness for `assignment_sets_env`: `FOO=$HOME` binds FOO to the
resolved value `/home/u` and returns 0 without forking. -/
theorem assignment_sets_env_witness :
    parse_simple w0 (some assignCmd) 0 .nullc st0 =
      (.ret 0, { st0 with
        env := ("FOO", wordConcat st0 (.mk "HOME" true .nullw .nullw)) :: st0.env }) ∧
    wordConcat st0 (.mk "HOME" true .nullw .nullw) = "/home/u" :=
  ⟨assignment_sets_env w0 assignCmd 0 .nullc st0 "FOO" false false
      (.mk "HOME" true .nullw .nullw) .nullw .nullw rfl,
   by decide⟩

/-- Claim C10 (confirmed): a `cd` with a parameter changes directory to
the literal string of the parameter's first fragment — no environment
substitution even when the fragment is expand-flagged, and the following
fragments are ignored; the command returns 1 when `chdir` fails and the
raw wait status 0 of the forked child otherwise.  By contrast `getFile`
(used for redirection targets) substitutes the environment value of an
expand-flagged fragment. -/
theorem cd_uses_literal_first_fragment (w : World) (s : simple_command_t)
    (level : Nat) (father : command_t) (st : PState)
    (ve : Bool) (vnw : word_t) (ps : String) (pe : Bool) (pp pnw : word_t)
    (hverb : s.verb = .mk "cd" ve .nullw vnw)
    (hparams : s.params = .mk ps pe pp pnw) :
    parse_simple w (some s) level father st =
      (if w.validDir ps then
        (.ret 0, { st with cwd := ps, spawns := st.spawns + 1 })
       else (.ret 1, { st with spawns := st.spawns + 1 })) ∧
    getFile st (.mk ps true .nullw .nullw) = (getenvS st ps).getD "" := by
  constructor
  · by_cases hvd : w.validDir ps <;>
      simp [parse_simple, hverb, hparams, word_t.string, word_t.next_part,
        shell_cd, chdirS, hvd, wstatus]
  · simp [getFile, wordConcat]

/-- Witness for `cd_uses_literal_first_fragment`: `cd $HOME/x` (an
expand-flagged `HOME` fragment then a literal `/x` fragment) attempts
`chdir("HOME")` — the literal name, which is no valid directory — and
returns 1, while `getFile` on the expand-flagged fragment would have
produced `/home/u`. -/
theorem cd_uses_literal_first_fragment_witness :
    (parse_simple w0 (some cdExpandCmd) 0 .nullc st0 =
      (if w0.validDir "HOME" then
        (.ret 0, { st0 with cwd := "HOME", spawns := st0.spawns + 1 })
       else (.ret 1, { st0 with spawns := st0.spawns + 1 })) ∧
     getFile st0 (.mk "HOME" true .nullw .nullw) = (getenvS st0 "HOME").getD "") ∧
    w0.validDir "HOME" = false ∧
    (getenvS st0 "HOME").getD "" = "/home/u" :=
  ⟨cd_uses_literal_first_fragment w0 cdExpandCmd 0 .nullc st0 false .nullw
      "HOME" true (wlit "/x") .nullw rfl rfl,
   by decide, by decide⟩

/-- Counterexample to claim C3 as stated: for the input-redirected
command `x < f`, running `saveAllAndSwitch` and then `switchAndClose`
from the standard state restores the three standard streams and closes
the opened target descriptor — but the duplicate made by `dup(STDIN)`
for restoration (descriptor 3) is never closed: a descriptor remains
leaked, so the final table differs from the original one. -/
theorem redirect_leak_counterexample :
    (switchAndClose (saveAllAndSwitch inOnlyCmd st0).1 inOnlyCmd
      (saveAllAndSwitch inOnlyCmd st0).2).fds =
      [(0, .tin), (1, .tout), (2, .terr), (3, .tin)] ∧
    (switchAndClose (saveAllAndSwitch inOnlyCmd st0).1 inOnlyCmd
      (saveAllAndSwitch inOnlyCmd st0).2).fds ≠ st0.fds := by
  refine ⟨by decide, by decide⟩

/-- Claim C3 (amended): after a redirected simple command's
save/redirect/restore round trip, the three standard streams again
refer to their original targets and every descriptor opened on a
redirection target is closed exactly once, but the saved duplicates of
the original streams are never closed — exactly one descriptor leaks
per redirected stream (`leakedDups`).  Quantified over every
combination of present streams, the three `io_flags` values, and
same-vs-different output/error targets. -/
theorem redirect_round_trip :
    ∀ (hasIn hasOut hasErr : Bool) (flags : Fin 3) (same : Bool),
      (switchAndClose
        (saveAllAndSwitch (redirCase hasIn hasOut hasErr flags same) st0).1
        (redirCase hasIn hasOut hasErr flags same)
        (saveAllAndSwitch (redirCase hasIn hasOut hasErr flags same) st0).2).fds =
      stdFds ++ leakedDups (redirCase hasIn hasOut hasErr flags same) := by
  decide

/-- Counterexample to claim C4 as stated: for `x > f g 2> fg` — output
target with fragments `f`,`g` and error target `fg` — both targets
resolve to the path `fg`, yet both files are opened with the truncate
flag, because the source compares only the first fragments' literal
strings (`strcmp(s->out->string, s->err->string)`), and the error side
never consults the output target at all. -/
theorem same_target_append_counterexample :
    getFile st0 outTwoFragsCmd.out = getFile st0 outTwoFragsCmd.err ∧
    lookupFd ((saveAllAndSwitch outTwoFragsCmd st0).2).fds 1 =
      some (.fileWrite "fg" false) ∧
    lookupFd ((saveAllAndSwitch outTwoFragsCmd st0).2).fds 2 =
      some (.fileWrite "fg" false) := by
  refine ⟨by decide, by decide, by decide⟩

/-- Claim C4 (amended): after `saveAllAndSwitch`, stdout's file is open
in append mode exactly when the out-append flag is set or an error
target exists whose first fragment's literal string equals the output
target's first fragment's string; stderr's file is open in append mode
exactly when the err-append flag is set, independent of any same-target
condition.  Quantified over input-stream presence, error presence,
same-vs-different targets, and the three `io_flags` values. -/
theorem out_err_open_modes :
    ∀ (hasIn hasErr : Bool) (flags : Fin 3) (same : Bool),
      lookupFd ((saveAllAndSwitch (redirCase hasIn true hasErr flags same) st0).2).fds 1 =
        some (.fileWrite (getFile st0 (redirCase hasIn true hasErr flags same).out)
          ((redirCase hasIn true hasErr flags same).io_flags == IO_OUT_APPEND
            || (!((redirCase hasIn true hasErr flags same).err == .nullw)
                && (redirCase hasIn true hasErr flags same).out.string ==
                   (redirCase hasIn true hasErr flags same).err.string))) ∧
      (hasErr = true →
        lookupFd ((saveAllAndSwitch (redirCase hasIn true hasErr flags same) st0).2).fds 2 =
          some (.fileWrite (getFile st0 (redirCase hasIn true hasErr flags same).err)
            ((redirCase hasIn true hasErr flags same).io_flags == IO_ERR_APPEND))) := by
  decide

/-- Witness for `out_err_open_modes` at the instance `x > fo 2> fo` with
no append flags: the output file is opened in append mode (same-target
rule), the error file in truncate mode. -/
theorem out_err_open_modes_witness :
    lookupFd ((saveAllAndSwitch (redirCase false true true 0 true) st0).2).fds 1 =
      some (.fileWrite (getFile st0 (redirCase false true true 0 true).out)
        ((redirCase false true true 0 true).io_flags == IO_OUT_APPEND
          || (!((redirCase false true true 0 true).err == .nullw)
              && (redirCase false true true 0 true).out.string ==
                 (redirCase false true true 0 true).err.string))) ∧
    (true = true →
      lookupFd ((saveAllAndSwitch (redirCase false true true 0 true) st0).2).fds 2 =
        some (.fileWrite (getFile st0 (redirCase false true true 0 true).err)
          ((redirCase false true true 0 true).io_flags == IO_ERR_APPEND))) :=
  out_err_open_modes false true 0 true

/-- Witness for `conditional_cd_parent_side`: left branch `cd /d` under
an IF_ZERO and an IF_NONZERO node with shortcut command `x`. -/
theorem conditional_cd_parent_side_witness :
    (parse_command w0
      (.mk .OP_CONDITIONAL_ZERO (some (plainCmd "x"))
        (.mk .OP_NONE (some cdCmd) .nullc .nullc) (mkLeaf "false"))
      0 .nullc st0).2.cwd = "/d" ∧
    (parse_command w0
      (.mk .OP_CONDITIONAL_NZERO (some (plainCmd "x"))
        (.mk .OP_NONE (some cdCmd) .nullc .nullc) (mkLeaf "false"))
      0 .nullc st0).2.cwd = st0.cwd ∧
    (∀ st' : PState,
      (condCdHook w0 (.mk .OP_NONE (some cdCmd) .nullc .nullc) st').cwd = "/d") :=
  conditional_cd_parent_side w0 (plainCmd "x") cdCmd .OP_NONE .nullc .nullc
    (mkLeaf "false") 0 .nullc st0 false .nullw .nullw "/d" false .nullw .nullw
    rfl rfl (by decide)
